import Mathlib

/-!
Verification of the `profiler_python27` package (files `profile.py`,
`enabled_profiler.py`, `disabled_profiler.py`) against its natural-language
specification.

The embedding models:
* the pstats statistics entries and the `sort_stats` comparator of the
  Python 2.7 standard-library `pstats` module (keys `module`, `name`,
  `ncalls`, `time` with the ascending/descending directions of
  `pstats.Stats.sort_arg_dict_default`, compared by `pstats.TupleComp`);
* the `EnabledProfiler` instance state and each of its methods as a state
  transformer emitting a trace of observable events (stdout lines, file
  open/write/close, cProfile actions, memory_profiler sampling calls);
* the `DisabledProfiler` class (all methods have body `pass`);
* the `Profile` facade, including the exact number of positional arguments
  each facade method passes to the backend method it invokes, so that
  Python `TypeError`s raised on arity mismatch are captured.

Numeric profiling data (internal/cumulative times, memory samples) is
modelled over `Int`; the claims under study concern only ordering and
data flow, never float rounding.
-/

/-- One entry of a pstats statistics table, as used by
`pstats.Stats.sort_stats`: an entry is keyed by `(file, line, name)` and
carries the call counts and times.  `module` is the file name (after
`strip_dirs` it is the base name), `ncalls` the call count (index 1 of the
pstats sort tuple), `tottime` the internal time (index 2), `cumtime` the
cumulative time (index 3). -/
structure ProfEntry where
  module : String
  line : Nat
  name : String
  ncalls : Nat
  tottime : Int
  cumtime : Int
deriving DecidableEq, Repr

/-- The sort keys the repository passes to `pstats.Stats.sort_stats`:
`'module'`, `'name'`, `'ncalls'`, `'time'`. -/
inductive SortKey where
  | module
  | name
  | ncalls
  | time
deriving DecidableEq, Repr

namespace TupleComp

/-- Comparison of two entries on one sort key, mirroring
`pstats.TupleComp.compare` together with the directions of
`pstats.Stats.sort_arg_dict_default`: `module` (file name) and `name`
compare ascending (direction `1`), `ncalls` and `time` compare descending
(direction `-1`), i.e. for those keys a smaller value compares as greater. -/
def cmpKey : SortKey → ProfEntry → ProfEntry → Ordering
  | .module, a, b =>
      if a.module < b.module then .lt else if b.module < a.module then .gt else .eq
  | .name, a, b =>
      if a.name < b.name then .lt else if b.name < a.name then .gt else .eq
  | .ncalls, a, b =>
      if a.ncalls < b.ncalls then .gt else if b.ncalls < a.ncalls then .lt else .eq
  | .time, a, b =>
      if a.tottime < b.tottime then .gt else if b.tottime < a.tottime then .lt else .eq

/-- Left-to-right lexicographic combination of the key comparisons, as in
`pstats.TupleComp.compare` iterating over its key list. -/
def cmpKeys : List SortKey → ProfEntry → ProfEntry → Ordering
  | [], _, _ => .eq
  | k :: ks, a, b =>
      match cmpKey k a b with
      | .eq => cmpKeys ks a b
      | o => o

end TupleComp

/-- The boolean `le` relation induced by the pstats comparator (Python's
`list.sort` with a comparison function places `a` no later than `b`
whenever `cmp a b <= 0`, i.e. the comparison is not `gt`). -/
def sortLe (ks : List SortKey) (a b : ProfEntry) : Bool :=
  match TupleComp.cmpKeys ks a b with
  | .gt => false
  | _ => true

/-- Model of `pstats.Stats.sort_stats` restricted to the key lists the
repository uses: a stable sort of the entry list by the pstats comparator. -/
def sort_stats (ks : List SortKey) (l : List ProfEntry) : List ProfEntry :=
  l.mergeSort (sortLe ks)

/-- Key list of `sort_stats('module', 'name', 'time')` as called by
`EnabledProfiler.statistics` and `EnabledProfiler.statistics_calls`. -/
def fullKeys : List SortKey := [.module, .name, .time]

/-- Key list of `sort_stats('name', 'ncalls', 'time')` as called by
`EnabledProfiler.module_stats` and `EnabledProfiler.module_stats_calls`
when a module is given. -/
def moduleKeys : List SortKey := [.name, .ncalls, .time]

/-- Three-level lexicographic "no later than" relation on a type with
projections into three linear orders: strictly smaller on the first
projection, or equal there and strictly smaller on the second, or equal on
both and no greater on the third. -/
def lex3 {α : Type} {A B C : Type} [LinearOrder A] [LinearOrder B] [LinearOrder C]
    (f : α → A) (g : α → B) (h : α → C) (a b : α) : Prop :=
  f a < f b ∨ (f a = f b ∧ (g a < g b ∨ (g a = g b ∧ h a ≤ h b)))

instance {α A B C : Type} [LinearOrder A] [LinearOrder B] [LinearOrder C]
    (f : α → A) (g : α → B) (h : α → C) (a b : α) : Decidable (lex3 f g h a b) := by
  unfold lex3
  infer_instance

/-- The order actually produced on the full-report path: module name
ascending, then function name ascending, then internal time descending
(the pstats direction for the `time` key is `-1`). -/
def fullReportLE : ProfEntry → ProfEntry → Prop :=
  lex3 (fun e => e.module) (fun e => e.name) (fun e => OrderDual.toDual e.tottime)

/-- The order actually produced on the module-scoped path: function name
ascending, then call count descending, then internal time descending
(the pstats directions for `ncalls` and `time` are `-1`). -/
def moduleReportLE : ProfEntry → ProfEntry → Prop :=
  lex3 (fun e => e.name) (fun e => OrderDual.toDual e.ncalls)
    (fun e => OrderDual.toDual e.tottime)

/-- The ordering asserted by the specification for the full-report path:
non-decreasing in the plain tuple (module name, function name, internal
time) with left-to-right precedence. -/
def claimTupleLE : ProfEntry → ProfEntry → Prop :=
  lex3 (fun e => e.module) (fun e => e.name) (fun e => e.tottime)

/-- The analogous plain non-decreasing tuple order (function name, call
count, internal time) for the module-scoped path. -/
def claimModuleTupleLE : ProfEntry → ProfEntry → Prop :=
  lex3 (fun e => e.name) (fun e => e.ncalls) (fun e => e.tottime)

/-- Base name of a path: the part after the last `/` separator.  Models
`os.path.basename` as used by `pstats.Stats.strip_dirs` on the entry file
names. -/
def basename (s : String) : String :=
  String.mk (s.data.foldl (fun acc ch => if ch = '/' then [] else acc ++ [ch]) [])

/-- Model of `pstats.Stats.strip_dirs` as used by this repository: every
entry's file (module) name is replaced by its base name.  (The pstats
collision merge for entries that become identical after stripping is not
modelled; no claim under study involves such collisions.) -/
def stripDirs (l : List ProfEntry) : List ProfEntry :=
  l.map (fun e => { e with module := basename e.module })

/-- The ordered entry list produced by the full-report path
(`strip_dirs` then `sort_stats('module', 'name', 'time')`), shared by
`EnabledProfiler.statistics` and `EnabledProfiler.statistics_calls`. -/
def statisticsOrder (entries : List ProfEntry) : List ProfEntry :=
  sort_stats fullKeys (stripDirs entries)

/-- Standard name of an entry, mirroring `pstats.func_std_string`:
`file:line(name)`. -/
def stdName (e : ProfEntry) : String :=
  e.module ++ ":" ++ toString e.line ++ "(" ++ e.name ++ ")"

/-- Whether `pat` occurs as a contiguous run inside a character list. -/
def charsContain (pat : List Char) : List Char → Bool
  | [] => pat.isEmpty
  | c :: rest => List.isPrefixOf pat (c :: rest) || charsContain pat rest

/-- Substring containment, modelling the `re.search` restriction that
`pstats.Stats.print_stats(module)` applies to the standard name of each
entry when the restriction is a string. -/
def strContains (s pat : String) : Bool :=
  charsContain pat.data s.data

/-- The ordered entry list produced by the module-scoped path for a given
module restriction (`strip_dirs`, then `sort_stats('name', 'ncalls',
'time')`, then the `print_stats(module)` selection, which preserves the
sorted order). -/
def moduleStatsOrder (m : String) (entries : List ProfEntry) : List ProfEntry :=
  (sort_stats moduleKeys (stripDirs entries)).filter (fun e => strContains (stdName e) m)

/-- The backend method names invoked by the `Profile` facade or defined by
the backend classes. -/
inductive MethodName where
  | enable
  | memory
  | disable
  | create_stats
  | print_stats
  | dump_stats
  | run
  | runctx
  | runcall
  | statistics
  | statistics_calls
  | mem_used
  | module_stats
  | module_stats_calls
deriving DecidableEq, Repr

/-- Python exceptions that the modelled code can raise: `TypeError` on a
call whose number of positional arguments does not fit the method's
signature, and `AttributeError` on access to an instance attribute that
was never assigned. -/
inductive PyError where
  | typeError (method : MethodName)
  | attributeError (attr : String)
deriving DecidableEq, Repr

/-- Observable events: a line printed to stdout, file open/write/close,
the actions delegated to the shared `cProfile.Profile` instance
`timingProf`, and a call into `memory_profiler.memory_usage` with the
interval it was given. -/
inductive Event where
  | openF (path : String) (mode : String)
  | writeF (path : String) (text : String)
  | closeF (path : String)
  | stdout (line : String)
  | cprofEnable
  | cprofDisable
  | cprofCreateStats
  | cprofPrintStats
  | cprofDumpStats (fname : String)
  | memUsageCall (interval : Nat)
deriving DecidableEq, Repr

/-- Opaque Python values passed through `run` and `runcall`; the modelled
code never inspects them. -/
inductive PyVal where
  | str (s : String)
  | int (n : Int)
  | noneV
  | obj (tag : String)
deriving DecidableEq, Repr

/-- Python `repr` of a list of numbers, as `print self.memoryProf`
displays the sample list returned by `memory_usage`. -/
def pyListRepr (l : List Int) : String :=
  "[" ++ String.intercalate ", " (l.map toString) ++ "]"

/-- One printed row of a pstats report for an entry (the exact pstats
column layout is abstracted into an injective rendering of the entry). -/
def entryLine (e : ProfEntry) : String :=
  toString e.ncalls ++ "  " ++ toString e.tottime ++ "  " ++ toString e.cumtime ++ "  " ++
    stdName e

/-- Text written by `pstats.Stats.print_stats`: the rows of the ordered
entry list. -/
def renderStats (l : List ProfEntry) : String :=
  String.intercalate "\x0a" (l.map entryLine)

/-- Text written by `pstats.Stats.print_callers` (caller list), abstracted
as a tagged rendering of the ordered entry list. -/
def renderCallers (l : List ProfEntry) : String :=
  "callers:\x0a" ++ renderStats l

/-- Text written by `pstats.Stats.print_callees` (callee list), abstracted
as a tagged rendering of the ordered entry list. -/
def renderCallees (l : List ProfEntry) : String :=
  "callees:\x0a" ++ renderStats l

/-- The separator line printed around the memory report in
`EnabledProfiler.mem_used`. -/
def memSep : String := "------------------------------------------------"

/-- Instance state of `EnabledProfiler` (`enabled_profiler.py`).  Instance
attributes that Python assigns only on some paths (`comment` and
`memoryProf`, assigned by the first effective `memory` call; `streamFile`,
assigned only when a file name was given; `streamStats`, assigned by the
streaming branch of the report methods) are `Option`s, with `none`
standing for "attribute never assigned", whose access raises
`AttributeError`. -/
structure EnabledProfiler where
  is_sammpling_memory : Bool
  comment : Option String
  memoryProf : Option (List Int)
  streaming : Bool
  streamFile : Option String
  streamStats : Option String
deriving DecidableEq, Repr

/-- Result of a backend method call: an uncaught Python exception, or the
successor instance state together with the trace of observable events. -/
abbrev PyResult := Except PyError (EnabledProfiler × List Event)

/-- Constructor `EnabledProfiler.__init__(outFilename=None)`: clears the
sampling flag; when `outFilename` is not `None` stores it as `streamFile`
and sets `streaming`, otherwise only clears `streaming` (leaving
`streamFile` unassigned). -/
def EnabledProfiler.init (outFilename : Option String) : EnabledProfiler :=
  { is_sammpling_memory := false
    comment := none
    memoryProf := none
    streaming := outFilename.isSome
    streamFile := outFilename
    streamStats := none }

/-- Method `enable`: delegates to `timingProf.enable()`. -/
def EnabledProfiler.enable (s : EnabledProfiler) : EnabledProfiler × List Event :=
  (s, [.cprofEnable])

/-- Method `memory(interval=1, comment='')`: when the sampling flag is not
yet set, sets it, stores the comment, and stores the sample list returned
by the call `memory_usage(-1, interval, None, False, False, False, True,
None)` (modelled by the `samples` argument, with the interval recorded in
the trace); on any later call the whole body is skipped. -/
def EnabledProfiler.memory (s : EnabledProfiler) (interval : Nat) (comment : String)
    (samples : List Int) : EnabledProfiler × List Event :=
  if !s.is_sammpling_memory then
    ({ s with is_sammpling_memory := true
              comment := some comment
              memoryProf := some samples }, [.memUsageCall interval])
  else
    (s, [])

/-- Method `disable`: delegates to `timingProf.disable()`. -/
def EnabledProfiler.disable (s : EnabledProfiler) : EnabledProfiler × List Event :=
  (s, [.cprofDisable])

/-- Method `create_stats`: delegates to `timingProf.create_stats()`. -/
def EnabledProfiler.create_stats (s : EnabledProfiler) : EnabledProfiler × List Event :=
  (s, [.cprofCreateStats])

/-- Method `print_stats`: delegates to `timingProf.print_stats()`. -/
def EnabledProfiler.print_stats (s : EnabledProfiler) : EnabledProfiler × List Event :=
  (s, [.cprofPrintStats])

/-- Method `dump_stats(fname)`: delegates to `timingProf.dump_stats(fname)`. -/
def EnabledProfiler.dump_stats (s : EnabledProfiler) (fname : String) :
    EnabledProfiler × List Event :=
  (s, [.cprofDumpStats fname])

/-- Method `run(command)`: body is `pass`. -/
def EnabledProfiler.run (s : EnabledProfiler) (command : PyVal) :
    EnabledProfiler × List Event :=
  (s, [])

/-- Method `runctx(command, globals, locals)`: body is `pass`. -/
def EnabledProfiler.runctx (s : EnabledProfiler) (command g l : PyVal) :
    EnabledProfiler × List Event :=
  (s, [])

/-- Method `runcall(func, args, kwargs)`: body is `pass`. -/
def EnabledProfiler.runcall (s : EnabledProfiler) (func args kwargs : PyVal) :
    EnabledProfiler × List Event :=
  (s, [])

/-- Method `mem_used`: when the sampling flag is set, prints the bordered
memory block (separator, fixed header, stored comment, stored sample list,
separator); otherwise does nothing. -/
def EnabledProfiler.mem_used (s : EnabledProfiler) : PyResult :=
  if s.is_sammpling_memory then
    match s.comment, s.memoryProf with
    | some c, some mp =>
        .ok (s, [.stdout memSep, .stdout "Memory usage (in Mb)", .stdout c,
          .stdout (pyListRepr mp), .stdout memSep])
    | _, _ => .error (.attributeError "comment")
  else
    .ok (s, [])

/-- Method `statistics`: when `streaming`, opens `streamFile` in append
mode (binding the handle to `streamStats`) and builds the `pstats.Stats`
over that stream, otherwise over stdout; calls `timingProf.create_stats()`;
strips directories, sorts by `('module', 'name', 'time')` and prints the
report; finally calls `self.streamStats.close()` unconditionally — in the
non-streaming case on whatever `streamStats` holds (an `AttributeError` if
it was never assigned).  `entries` is the profiling data held by the shared
`timingProf` instance. -/
def EnabledProfiler.statistics (s : EnabledProfiler) (entries : List ProfEntry) :
    PyResult :=
  if s.streaming then
    match s.streamFile with
    | some f =>
        .ok ({ s with streamStats := some f },
          [.openF f "a", .cprofCreateStats,
            .writeF f (renderStats (statisticsOrder entries)), .closeF f])
    | none => .error (.attributeError "streamFile")
  else
    match s.streamStats with
    | some h =>
        .ok (s, [.cprofCreateStats, .stdout (renderStats (statisticsOrder entries)),
          .closeF h])
    | none => .error (.attributeError "streamStats")

/-- Method `statistics_calls`: same stream setup and the same
`('module', 'name', 'time')` sort as `statistics`, but prints the caller
list and then the callee list — and never closes the stream it opened. -/
def EnabledProfiler.statistics_calls (s : EnabledProfiler) (entries : List ProfEntry) :
    PyResult :=
  if s.streaming then
    match s.streamFile with
    | some f =>
        .ok ({ s with streamStats := some f },
          [.openF f "a", .cprofCreateStats,
            .writeF f (renderCallers (statisticsOrder entries)),
            .writeF f (renderCallees (statisticsOrder entries))])
    | none => .error (.attributeError "streamFile")
  else
    .ok (s, [.cprofCreateStats, .stdout (renderCallers (statisticsOrder entries)),
      .stdout (renderCallees (statisticsOrder entries))])

/-- Method `module_stats(module=None)`: with `module == None` it is the
very call `self.statistics()`; otherwise the same stream setup, then a
sort by `('name', 'ncalls', 'time')` and `print_stats(module)` restricted
to the module (no close in this branch). -/
def EnabledProfiler.module_stats (s : EnabledProfiler) (entries : List ProfEntry)
    (module : Option String) : PyResult :=
  match module with
  | none => s.statistics entries
  | some m =>
      if s.streaming then
        match s.streamFile with
        | some f =>
            .ok ({ s with streamStats := some f },
              [.openF f "a", .cprofCreateStats,
                .writeF f (renderStats (moduleStatsOrder m entries))])
        | none => .error (.attributeError "streamFile")
      else
        .ok (s, [.cprofCreateStats, .stdout (renderStats (moduleStatsOrder m entries))])

/-- Method `module_stats_calls(module=None)`: with `module == None` it is
the very call `self.statistics()`; otherwise the same stream setup, then a
sort by `('name', 'ncalls', 'time')` and `print_callees(module)` (no close
in this branch). -/
def EnabledProfiler.module_stats_calls (s : EnabledProfiler) (entries : List ProfEntry)
    (module : Option String) : PyResult :=
  match module with
  | none => s.statistics entries
  | some m =>
      if s.streaming then
        match s.streamFile with
        | some f =>
            .ok ({ s with streamStats := some f },
              [.openF f "a", .cprofCreateStats,
                .writeF f (renderCallees (moduleStatsOrder m entries))])
        | none => .error (.attributeError "streamFile")
      else
        .ok (s, [.cprofCreateStats, .stdout (renderCallees (moduleStatsOrder m entries))])

/-- Positional-argument signature (required, maximum) of each
`DisabledProfiler` method, read off the `def` lines of
`disabled_profiler.py` (every parameter after `self` has a default, so
required is 0 throughout; `dump_stats(self)` takes no argument and
`run(self, command=None)` takes at most one). -/
def disabledSig : MethodName → Nat × Nat
  | .mem_used => (0, 0)
  | .memory => (0, 2)
  | .enable => (0, 0)
  | .disable => (0, 0)
  | .create_stats => (0, 0)
  | .print_stats => (0, 0)
  | .dump_stats => (0, 0)
  | .run => (0, 1)
  | .runctx => (0, 3)
  | .runcall => (0, 3)
  | .statistics => (0, 0)
  | .module_stats => (0, 1)
  | .statistics_calls => (0, 0)
  | .module_stats_calls => (0, 1)

/-- Positional-argument signature (required, maximum) of each
`EnabledProfiler` method, read off the `def` lines of
`enabled_profiler.py`. -/
def enabledSig : MethodName → Nat × Nat
  | .enable => (0, 0)
  | .memory => (0, 2)
  | .disable => (0, 0)
  | .create_stats => (0, 0)
  | .print_stats => (0, 0)
  | .dump_stats => (1, 1)
  | .run => (1, 1)
  | .runctx => (3, 3)
  | .runcall => (3, 3)
  | .statistics => (0, 0)
  | .statistics_calls => (0, 0)
  | .mem_used => (0, 0)
  | .module_stats => (0, 1)
  | .module_stats_calls => (0, 1)

/-- Python accepts a call exactly when the number of positional arguments
lies between the required and the maximum count; otherwise it raises
`TypeError` before the method body runs. -/
def argCountOk (sig : Nat × Nat) (n : Nat) : Bool :=
  sig.1 ≤ n && n ≤ sig.2

/-- The public operations of the `Profile` facade (`profile.py`), with the
argument payloads their bodies forward.  Of the two `def run` lines in
`profile.py` only the later three-parameter one is bound (Python class
bodies overwrite earlier defs of the same name). -/
inductive FacadeOp where
  | enable
  | sample_memory (comment : String)
  | disable
  | create_stats
  | memory_usage
  | print_stats
  | dump_stats
  | run (command g l : PyVal)
  | runcall (func args kwargs : PyVal)
  | stats
  | profile_module (m : Option String)
  | profile_module_calls (m : Option String)
deriving DecidableEq, Repr

/-- The backend method each facade operation invokes and the number of
positional arguments the facade body passes to it, read off the method
bodies in `profile.py` (`sample_memory` passes `(1, comment)`;
`dump_stats` passes `self.profile_file`; `run` passes
`(command, globals, locals)`; `runcall` passes `(func, args, kwargs)`;
`profile_module` and `profile_module_calls` pass `module`). -/
def facadeCall : FacadeOp → MethodName × Nat
  | .enable => (.enable, 0)
  | .sample_memory _ => (.memory, 2)
  | .disable => (.disable, 0)
  | .create_stats => (.create_stats, 0)
  | .memory_usage => (.mem_used, 0)
  | .print_stats => (.print_stats, 0)
  | .dump_stats => (.dump_stats, 1)
  | .run _ _ _ => (.run, 3)
  | .runcall _ _ _ => (.runcall, 3)
  | .stats => (.statistics, 0)
  | .profile_module _ => (.module_stats, 1)
  | .profile_module_calls _ => (.module_stats_calls, 1)

/-- The backend bound by a facade instance: an `EnabledProfiler` state, or
the stateless `DisabledProfiler`. -/
inductive Backend where
  | enabled (s : EnabledProfiler)
  | disabled
deriving DecidableEq, Repr

/-- Whether a backend is the enabled one. -/
def Backend.isEnabled : Backend → Bool
  | .enabled _ => true
  | .disabled => false

/-- Instance state of the `Profile` facade (`profile.py`): the stored file
name and the backend chosen at construction. -/
structure Profile where
  profile_file : String
  profiler : Backend
deriving DecidableEq, Repr

/-- Constructor `Profile.__init__(is_enabled=True, filename="")`: stores
the file name and constructs an `EnabledProfiler(self.profile_file)` when
`is_enabled`, else a `DisabledProfiler()`. -/
def Profile.init (is_enabled : Bool) (filename : String) : Profile :=
  { profile_file := filename
    profiler := if is_enabled then .enabled (EnabledProfiler.init (some filename))
      else .disabled }

/-- A `Profile` constructed with both parameters left at their defaults
(`Profile()` in Python: `is_enabled=True`, `filename=""`). -/
def Profile.initDefault : Profile := Profile.init true ""

/-- External data a facade operation may consume: the profiling entries
held by the shared `timingProf` instance, and the sample list the next
`memory_usage` call would return. -/
structure Env where
  entries : List ProfEntry
  memSamples : List Int
deriving DecidableEq, Repr

/-- Dispatch of a facade operation on an enabled backend, after the arity
check: each arm is the backend call the facade body makes
(`sample_memory` calls `memory(1, comment)`; `dump_stats` passes the
facade's stored file name). -/
def EnabledProfiler.dispatch (env : Env) (s : EnabledProfiler) (profile_file : String) :
    FacadeOp → PyResult
  | .enable => .ok s.enable
  | .sample_memory c => .ok (s.memory 1 c env.memSamples)
  | .disable => .ok s.disable
  | .create_stats => .ok s.create_stats
  | .memory_usage => s.mem_used
  | .print_stats => .ok s.print_stats
  | .dump_stats => .ok (s.dump_stats profile_file)
  | .run c _ _ => .ok (s.run c)
  | .runcall f a k => .ok (s.runcall f a k)
  | .stats => s.statistics env.entries
  | .profile_module m => s.module_stats env.entries m
  | .profile_module_calls m => s.module_stats_calls env.entries m

/-- One public operation on a `Profile` facade.  The facade body forwards
to the backend method named by `facadeCall`; Python raises `TypeError`
when the forwarded positional-argument count does not fit that method's
signature (this is how `dump_stats` and `run` fail, on either backend).
Every `DisabledProfiler` method body is `pass`, so an accepted call on the
disabled backend returns with no state change and no event. -/
def Profile.step (env : Env) (p : Profile) (op : FacadeOp) :
    Except PyError (Profile × List Event) :=
  let mc := facadeCall op
  match p.profiler with
  | .disabled =>
      if argCountOk (disabledSig mc.1) mc.2 then .ok (p, [])
      else .error (.typeError mc.1)
  | .enabled s =>
      if argCountOk (enabledSig mc.1) mc.2 then
        match EnabledProfiler.dispatch env s p.profile_file op with
        | .ok (s2, ev) => .ok ({ p with profiler := .enabled s2 }, ev)
        | .error e => .error e
      else .error (.typeError mc.1)

/-- The event trace of a call result (empty when the call raised). -/
def traceOf {σ : Type} (r : Except PyError (σ × List Event)) : List Event :=
  match r with
  | .ok x => x.2
  | .error _ => []

/-- Whether a call result is an uncaught exception. -/
def raised {σ : Type} (r : Except PyError (σ × List Event)) : Bool :=
  match r with
  | .ok _ => false
  | .error _ => true

/-- Whether an event is a file open. -/
def Event.isOpenF : Event → Bool
  | .openF _ _ => true
  | _ => false

/-- Whether an event is a file close. -/
def Event.isCloseF : Event → Bool
  | .closeF _ => true
  | _ => false

/-- Whether an event is a printed stdout line. -/
def Event.isStdout : Event → Bool
  | .stdout _ => true
  | _ => false

/-- A trace leaks no file handle when it closes as many handles as it
opens (every trace under study opens at most one). -/
def balancedOpens (tr : List Event) : Bool :=
  tr.countP Event.isOpenF == tr.countP Event.isCloseF

/-- Content of the file at `path` after the writes of a trace, starting
from `content` (opening in mode `"a"` keeps the existing content). -/
def replayFile (path content : String) : List Event → String
  | [] => content
  | .writeF p t :: tr => replayFile path (if p = path then content ++ t else content) tr
  | _ :: tr => replayFile path content tr

/-- The intervals of all `memory_usage` calls recorded in a trace. -/
def memUsageIntervals (tr : List Event) : List Nat :=
  tr.filterMap (fun e => match e with | .memUsageCall i => some i | _ => none)

/-- A direct method invocation on an enabled backend instance, with the
external data the method consumes (used to describe the possible call
histories of one instance). -/
inductive BCall where
  | memory (interval : Nat) (comment : String) (samples : List Int)
  | enable
  | disable
  | create_stats
  | print_stats
  | dump_stats (fname : String)
  | run (command : PyVal)
  | runctx (command g l : PyVal)
  | runcall (func args kwargs : PyVal)
  | statistics (entries : List ProfEntry)
  | statistics_calls (entries : List ProfEntry)
  | mem_used
  | module_stats (entries : List ProfEntry) (m : Option String)
  | module_stats_calls (entries : List ProfEntry) (m : Option String)
deriving DecidableEq, Repr

/-- Execute one direct backend method invocation. -/
def EnabledProfiler.call (s : EnabledProfiler) : BCall → PyResult
  | .memory i c samples => .ok (s.memory i c samples)
  | .enable => .ok s.enable
  | .disable => .ok s.disable
  | .create_stats => .ok s.create_stats
  | .print_stats => .ok s.print_stats
  | .dump_stats f => .ok (s.dump_stats f)
  | .run c => .ok (s.run c)
  | .runctx c g l => .ok (s.runctx c g l)
  | .runcall f a k => .ok (s.runcall f a k)
  | .statistics entries => s.statistics entries
  | .statistics_calls entries => s.statistics_calls entries
  | .mem_used => s.mem_used
  | .module_stats entries m => s.module_stats entries m
  | .module_stats_calls entries m => s.module_stats_calls entries m

/-- The instance state after a direct backend method invocation (a raised
exception propagates out of the method without further state change, so
the state is the one already reached). -/
def EnabledProfiler.applyCall (s : EnabledProfiler) (c : BCall) : EnabledProfiler :=
  match s.call c with
  | .ok (s2, _) => s2
  | .error _ => s

/-- The instance state after a sequence of direct backend method
invocations. -/
def EnabledProfiler.applyCalls (s : EnabledProfiler) (cs : List BCall) : EnabledProfiler :=
  cs.foldl EnabledProfiler.applyCall s

/-- Whether a backend invocation is a memory-sampling call. -/
def BCall.isMemory : BCall → Bool
  | .memory _ _ _ => true
  | _ => false

/-- The facade state after one public operation (a raised exception
propagates without further state change, so the state is the one already
reached). -/
def Profile.applyOp (env : Env) (p : Profile) (op : FacadeOp) : Profile :=
  match Profile.step env p op with
  | .ok (p2, _) => p2
  | .error _ => p

/-- Invariant of an `EnabledProfiler` instance: once the sampling flag is
set, the `comment` and `memoryProf` attributes have been assigned. -/
def MemWF (s : EnabledProfiler) : Prop :=
  s.is_sammpling_memory = true → s.comment.isSome = true ∧ s.memoryProf.isSome = true

/-- The bordered memory block printed by `EnabledProfiler.mem_used` for a
stored comment and sample list. -/
def memBlock (c : String) (mp : List Int) : List Event :=
  [.stdout memSep, .stdout "Memory usage (in Mb)", .stdout c,
    .stdout (pyListRepr mp), .stdout memSep]

/-- First entry of the sort-order counterexample workload: same module and
function name as `ce2` (after stripping), smaller internal time. -/
def ce1 : ProfEntry :=
  { module := "m", line := 1, name := "f", ncalls := 1, tottime := 1, cumtime := 1 }

/-- Second entry of the sort-order counterexample workload: same module
and function name as `ce1`, larger internal time. -/
def ce2 : ProfEntry :=
  { module := "m", line := 2, name := "f", ncalls := 1, tottime := 2, cumtime := 2 }

theorem lex3_trans {α A B C : Type} [LinearOrder A] [LinearOrder B] [LinearOrder C]
    {f : α → A} {g : α → B} {h : α → C} {a b c : α}
    (hab : lex3 f g h a b) (hbc : lex3 f g h b c) : lex3 f g h a c := by
  rcases hab with hab | ⟨eab, hab⟩
  · rcases hbc with hbc | ⟨ebc, hbc⟩
    · exact Or.inl (lt_trans hab hbc)
    · exact Or.inl (ebc ▸ hab)
  · rcases hbc with hbc | ⟨ebc, hbc⟩
    · exact Or.inl (eab ▸ hbc)
    · refine Or.inr ⟨eab.trans ebc, ?_⟩
      rcases hab with hab | ⟨gab, hab⟩
      · rcases hbc with hbc | ⟨gbc, hbc⟩
        · exact Or.inl (lt_trans hab hbc)
        · exact Or.inl (gbc ▸ hab)
      · rcases hbc with hbc | ⟨gbc, hbc⟩
        · exact Or.inl (gab ▸ hbc)
        · exact Or.inr ⟨gab.trans gbc, le_trans hab hbc⟩

theorem lex3_total {α A B C : Type} [LinearOrder A] [LinearOrder B] [LinearOrder C]
    (f : α → A) (g : α → B) (h : α → C) (a b : α) :
    lex3 f g h a b ∨ lex3 f g h b a := by
  rcases lt_trichotomy (f a) (f b) with hf | hf | hf
  · exact Or.inl (Or.inl hf)
  · rcases lt_trichotomy (g a) (g b) with hg | hg | hg
    · exact Or.inl (Or.inr ⟨hf, Or.inl hg⟩)
    · rcases le_total (h a) (h b) with hh | hh
      · exact Or.inl (Or.inr ⟨hf, Or.inr ⟨hg, hh⟩⟩)
      · exact Or.inr (Or.inr ⟨hf.symm, Or.inr ⟨hg.symm, hh⟩⟩)
    · exact Or.inr (Or.inr ⟨hf.symm, Or.inl hg⟩)
  · exact Or.inr (Or.inl hf)

theorem sortLe_fullKeys_iff (a b : ProfEntry) :
    sortLe fullKeys a b = true ↔ fullReportLE a b := by
  unfold sortLe fullKeys fullReportLE lex3
  rcases lt_trichotomy a.module b.module with hm | hm | hm
  · simp [TupleComp.cmpKeys, TupleComp.cmpKey, hm, asymm hm]
  · rcases lt_trichotomy a.name b.name with hn | hn | hn
    · simp [TupleComp.cmpKeys, TupleComp.cmpKey, hm, lt_irrefl, hn, asymm hn]
    · rcases le_or_lt b.tottime a.tottime with ht | ht
      · rcases lt_or_eq_of_le ht with ht2 | ht2
        · simp [TupleComp.cmpKeys, TupleComp.cmpKey, hm, hn, lt_irrefl, ht2, asymm ht2, ht]
        · simp [TupleComp.cmpKeys, TupleComp.cmpKey, hm, hn, lt_irrefl, ht2, ht]
      · simp [TupleComp.cmpKeys, TupleComp.cmpKey, hm, hn, lt_irrefl, ht, asymm ht,
          not_le.mpr ht]
    · simp [TupleComp.cmpKeys, TupleComp.cmpKey, hm, hn, lt_irrefl, asymm hn, hn.ne',
        hn.not_lt]
  · simp [TupleComp.cmpKeys, TupleComp.cmpKey, hm, asymm hm, hm.ne', hm.not_lt]

theorem sortLe_moduleKeys_iff (a b : ProfEntry) :
    sortLe moduleKeys a b = true ↔ moduleReportLE a b := by
  unfold sortLe moduleKeys moduleReportLE lex3
  rcases lt_trichotomy a.name b.name with hn | hn | hn
  · simp [TupleComp.cmpKeys, TupleComp.cmpKey, hn, asymm hn]
  · rcases lt_trichotomy a.ncalls b.ncalls with hc | hc | hc
    · simp [TupleComp.cmpKeys, TupleComp.cmpKey, hn, lt_irrefl, hc, asymm hc, hc.ne,
        hc.not_lt]
    · rcases le_or_lt b.tottime a.tottime with ht | ht
      · rcases lt_or_eq_of_le ht with ht2 | ht2
        · simp [TupleComp.cmpKeys, TupleComp.cmpKey, hn, hc, lt_irrefl, ht2, asymm ht2, ht]
        · simp [TupleComp.cmpKeys, TupleComp.cmpKey, hn, hc, lt_irrefl, ht2, ht]
      · simp [TupleComp.cmpKeys, TupleComp.cmpKey, hn, hc, lt_irrefl, ht, asymm ht,
          not_le.mpr ht]
    · simp [TupleComp.cmpKeys, TupleComp.cmpKey, hn, hc, lt_irrefl, asymm hc, hc.ne',
        hc.le]
  · simp [TupleComp.cmpKeys, TupleComp.cmpKey, hn, asymm hn, hn.ne', hn.not_lt]

theorem sortLe_fullKeys_trans (a b c : ProfEntry)
    (hab : sortLe fullKeys a b = true) (hbc : sortLe fullKeys b c = true) :
    sortLe fullKeys a c = true :=
  (sortLe_fullKeys_iff a c).mpr
    (lex3_trans ((sortLe_fullKeys_iff a b).mp hab) ((sortLe_fullKeys_iff b c).mp hbc))

theorem sortLe_fullKeys_total (a b : ProfEntry) :
    sortLe fullKeys a b || sortLe fullKeys b a := by
  rcases lex3_total (fun e : ProfEntry => e.module) (fun e => e.name)
      (fun e => OrderDual.toDual e.tottime) a b with h | h
  · simp [(sortLe_fullKeys_iff a b).mpr h]
  · simp [(sortLe_fullKeys_iff b a).mpr h]

theorem sortLe_moduleKeys_trans (a b c : ProfEntry)
    (hab : sortLe moduleKeys a b = true) (hbc : sortLe moduleKeys b c = true) :
    sortLe moduleKeys a c = true :=
  (sortLe_moduleKeys_iff a c).mpr
    (lex3_trans ((sortLe_moduleKeys_iff a b).mp hab) ((sortLe_moduleKeys_iff b c).mp hbc))

theorem sortLe_moduleKeys_total (a b : ProfEntry) :
    sortLe moduleKeys a b || sortLe moduleKeys b a := by
  rcases lex3_total (fun e : ProfEntry => e.name) (fun e => OrderDual.toDual e.ncalls)
      (fun e => OrderDual.toDual e.tottime) a b with h | h
  · simp [(sortLe_moduleKeys_iff a b).mpr h]
  · simp [(sortLe_moduleKeys_iff b a).mpr h]

theorem statisticsOrder_pairwise (entries : List ProfEntry) :
    (statisticsOrder entries).Pairwise fullReportLE := by
  have h := @List.sorted_mergeSort _ (sortLe fullKeys)
    (fun a b c => sortLe_fullKeys_trans a b c)
    (fun a b => sortLe_fullKeys_total a b) (stripDirs entries)
  exact h.imp (fun hab => (sortLe_fullKeys_iff _ _).mp hab)

theorem moduleStatsOrder_pairwise (m : String) (entries : List ProfEntry) :
    (moduleStatsOrder m entries).Pairwise moduleReportLE := by
  have h := @List.sorted_mergeSort _ (sortLe moduleKeys)
    (fun a b c => sortLe_moduleKeys_trans a b c)
    (fun a b => sortLe_moduleKeys_total a b) (stripDirs entries)
  exact (h.imp (fun hab => (sortLe_moduleKeys_iff _ _).mp hab)).filter _

theorem applyCall_sameMem (s : EnabledProfiler) (c : BCall) (h : c.isMemory = false) :
    (s.applyCall c).is_sammpling_memory = s.is_sammpling_memory ∧
    (s.applyCall c).comment = s.comment ∧
    (s.applyCall c).memoryProf = s.memoryProf := by
  cases c with
  | memory i co sa => simp [BCall.isMemory] at h
  | enable =>
      simp [EnabledProfiler.applyCall, EnabledProfiler.call, EnabledProfiler.enable]
  | disable =>
      simp [EnabledProfiler.applyCall, EnabledProfiler.call, EnabledProfiler.disable]
  | create_stats =>
      simp [EnabledProfiler.applyCall, EnabledProfiler.call, EnabledProfiler.create_stats]
  | print_stats =>
      simp [EnabledProfiler.applyCall, EnabledProfiler.call, EnabledProfiler.print_stats]
  | dump_stats f =>
      simp [EnabledProfiler.applyCall, EnabledProfiler.call, EnabledProfiler.dump_stats]
  | run cm =>
      simp [EnabledProfiler.applyCall, EnabledProfiler.call, EnabledProfiler.run]
  | runctx cm g l =>
      simp [EnabledProfiler.applyCall, EnabledProfiler.call, EnabledProfiler.runctx]
  | runcall f a k =>
      simp [EnabledProfiler.applyCall, EnabledProfiler.call, EnabledProfiler.runcall]
  | statistics entries =>
      cases hst : s.streaming
      · cases hss : s.streamStats <;>
          simp [EnabledProfiler.applyCall, EnabledProfiler.call,
            EnabledProfiler.statistics, hst, hss]
      · cases hsf : s.streamFile <;>
          simp [EnabledProfiler.applyCall, EnabledProfiler.call,
            EnabledProfiler.statistics, hst, hsf]
  | statistics_calls entries =>
      cases hst : s.streaming
      · simp [EnabledProfiler.applyCall, EnabledProfiler.call,
          EnabledProfiler.statistics_calls, hst]
      · cases hsf : s.streamFile <;>
          simp [EnabledProfiler.applyCall, EnabledProfiler.call,
            EnabledProfiler.statistics_calls, hst, hsf]
  | mem_used =>
      cases hf : s.is_sammpling_memory
      · simp [EnabledProfiler.applyCall, EnabledProfiler.call,
          EnabledProfiler.mem_used, hf]
      · cases hc : s.comment <;> cases hm : s.memoryProf <;>
          simp [EnabledProfiler.applyCall, EnabledProfiler.call,
            EnabledProfiler.mem_used, hf, hc, hm]
  | module_stats entries m =>
      cases m with
      | none =>
          cases hst : s.streaming
          · cases hss : s.streamStats <;>
              simp [EnabledProfiler.applyCall, EnabledProfiler.call,
                EnabledProfiler.module_stats, EnabledProfiler.statistics, hst, hss]
          · cases hsf : s.streamFile <;>
              simp [EnabledProfiler.applyCall, EnabledProfiler.call,
                EnabledProfiler.module_stats, EnabledProfiler.statistics, hst, hsf]
      | some mm =>
          cases hst : s.streaming
          · simp [EnabledProfiler.applyCall, EnabledProfiler.call,
              EnabledProfiler.module_stats, hst]
          · cases hsf : s.streamFile <;>
              simp [EnabledProfiler.applyCall, EnabledProfiler.call,
                EnabledProfiler.module_stats, hst, hsf]
  | module_stats_calls entries m =>
      cases m with
      | none =>
          cases hst : s.streaming
          · cases hss : s.streamStats <;>
              simp [EnabledProfiler.applyCall, EnabledProfiler.call,
                EnabledProfiler.module_stats_calls, EnabledProfiler.statistics, hst, hss]
          · cases hsf : s.streamFile <;>
              simp [EnabledProfiler.applyCall, EnabledProfiler.call,
                EnabledProfiler.module_stats_calls, EnabledProfiler.statistics, hst, hsf]
      | some mm =>
          cases hst : s.streaming
          · simp [EnabledProfiler.applyCall, EnabledProfiler.call,
              EnabledProfiler.module_stats_calls, hst]
          · cases hsf : s.streamFile <;>
              simp [EnabledProfiler.applyCall, EnabledProfiler.call,
                EnabledProfiler.module_stats_calls, hst, hsf]

theorem applyCall_is_sammpling (s : EnabledProfiler) (c : BCall) :
    (s.applyCall c).is_sammpling_memory = (s.is_sammpling_memory || c.isMemory) := by
  by_cases hmem : c.isMemory = true
  · cases c <;> simp [BCall.isMemory] at hmem ⊢
    rename_i i co sa
    cases hf : s.is_sammpling_memory <;>
      simp [EnabledProfiler.applyCall, EnabledProfiler.call, EnabledProfiler.memory, hf]
  · have h := applyCall_sameMem s c (by simpa using hmem)
    rw [h.1]
    simp [Bool.or_eq_true] at hmem ⊢
    simp [hmem]

theorem applyCall_memWF (s : EnabledProfiler) (c : BCall) (h : MemWF s) :
    MemWF (s.applyCall c) := by
  by_cases hmem : c.isMemory = true
  · cases c <;> simp [BCall.isMemory] at hmem
    rename_i i co sa
    cases hf : s.is_sammpling_memory
    · intro _
      simp [EnabledProfiler.applyCall, EnabledProfiler.call, EnabledProfiler.memory, hf]
    · intro _
      have heq : s.applyCall (.memory i co sa) = s := by
        simp [EnabledProfiler.applyCall, EnabledProfiler.call, EnabledProfiler.memory, hf]
      rw [heq]
      exact h hf
  · have hs := applyCall_sameMem s c (by simpa using hmem)
    intro hf
    rw [hs.1] at hf
    rw [hs.2.1, hs.2.2]
    exact h hf

theorem applyCalls_is_sammpling (cs : List BCall) (s : EnabledProfiler) :
    (s.applyCalls cs).is_sammpling_memory =
      (s.is_sammpling_memory || cs.any BCall.isMemory) := by
  induction cs generalizing s with
  | nil => simp [EnabledProfiler.applyCalls]
  | cons c cs ih =>
      have hstep : s.applyCalls (c :: cs) = (s.applyCall c).applyCalls cs := rfl
      rw [hstep, ih, applyCall_is_sammpling, List.any_cons, Bool.or_assoc]

theorem applyCalls_memWF (cs : List BCall) (s : EnabledProfiler) (h : MemWF s) :
    MemWF (s.applyCalls cs) := by
  induction cs generalizing s with
  | nil => exact h
  | cons c cs ih =>
      have hstep : s.applyCalls (c :: cs) = (s.applyCall c).applyCalls cs := rfl
      rw [hstep]
      exact ih _ (applyCall_memWF s c h)

/-- Claim C1 (status: code_bug).  The claim states that on a facade
constructed with `enabled=false` every public operation produces no
output and raises nothing.  Most operations indeed return unchanged state
with an empty trace, but `dump_stats` raises `TypeError` (the facade
passes `self.profile_file` while `DisabledProfiler.dump_stats(self)`
accepts no argument) and `run` raises `TypeError` (the surviving facade
`run` forwards three arguments while `DisabledProfiler.run(self,
command=None)` accepts at most one), contradicting the package's own
documentation that disabled methods do nothing. -/
theorem claim_C1_disabled_facade (fn comment : String) (env : Env)
    (v1 v2 v3 w1 w2 w3 : PyVal) (m m2 : Option String) :
    Profile.step env (Profile.init false fn) .enable = .ok (Profile.init false fn, []) ∧
    Profile.step env (Profile.init false fn) (.sample_memory comment) =
      .ok (Profile.init false fn, []) ∧
    Profile.step env (Profile.init false fn) .disable = .ok (Profile.init false fn, []) ∧
    Profile.step env (Profile.init false fn) .create_stats =
      .ok (Profile.init false fn, []) ∧
    Profile.step env (Profile.init false fn) .memory_usage =
      .ok (Profile.init false fn, []) ∧
    Profile.step env (Profile.init false fn) .print_stats =
      .ok (Profile.init false fn, []) ∧
    Profile.step env (Profile.init false fn) .stats = .ok (Profile.init false fn, []) ∧
    Profile.step env (Profile.init false fn) (.profile_module m) =
      .ok (Profile.init false fn, []) ∧
    Profile.step env (Profile.init false fn) (.profile_module_calls m2) =
      .ok (Profile.init false fn, []) ∧
    Profile.step env (Profile.init false fn) (.runcall w1 w2 w3) =
      .ok (Profile.init false fn, []) ∧
    Profile.step env (Profile.init false fn) .dump_stats =
      .error (.typeError .dump_stats) ∧
    Profile.step env (Profile.init false fn) (.run v1 v2 v3) =
      .error (.typeError .run) :=
  ⟨rfl, rfl, rfl, rfl, rfl, rfl, rfl, rfl, rfl, rfl, rfl, rfl⟩

/-- Claim C4 (status: confirmed).  Memory sampling through the facade is
idempotent after the first call: after `sample_memory a` on a fresh
enabled facade, a second `sample_memory b` with a different comment
returns with no state change and no event, the stored comment is still
`a`, and a subsequent `memory_usage` prints the bordered block showing
comment `a` (with the first call's sample list). -/
theorem claim_C4_sample_memory_idempotent (fn a b : String) (env1 env2 : Env)
    (hab : a ≠ b) :
    Profile.step env2 (Profile.applyOp env1 (Profile.init true fn) (.sample_memory a))
        (.sample_memory b) =
      .ok (Profile.applyOp env1 (Profile.init true fn) (.sample_memory a), []) ∧
    (∃ s, (Profile.applyOp env1 (Profile.init true fn) (.sample_memory a)).profiler =
        .enabled s ∧ s.comment = some a) ∧
    traceOf (Profile.step env2
        (Profile.applyOp env1 (Profile.init true fn) (.sample_memory a)) .memory_usage) =
      memBlock a env1.memSamples :=
  ⟨rfl, ⟨_, rfl, rfl⟩, rfl⟩

/-- Claim C5 (status: confirmed).  For every facade state, the
module-scoped report operations called with `module=None` are the very
same call as the full report operation `stats()`: both `profile_module
None` and `profile_module_calls None` return exactly the result of
`stats`. -/
theorem claim_C5_module_none_is_stats (env : Env) (p : Profile) :
    Profile.step env p (.profile_module none) = Profile.step env p .stats ∧
    Profile.step env p (.profile_module_calls none) = Profile.step env p .stats := by
  cases hp : p.profiler <;>
    simp [Profile.step, hp, facadeCall, disabledSig, enabledSig, argCountOk,
      EnabledProfiler.dispatch, EnabledProfiler.module_stats,
      EnabledProfiler.module_stats_calls]

/-- Claim C8 (status: confirmed).  The facade's `sample_memory(comment)`
always invokes the backend memory sampling with the hardcoded interval 1:
on any facade state the trace of the operation is either empty or exactly
one `memory_usage` call with interval 1 (the facade exposes no way to pass
any other interval). -/
theorem claim_C8_interval_hardcoded (env : Env) (p : Profile) (c : String) :
    traceOf (Profile.step env p (.sample_memory c)) = [] ∨
    traceOf (Profile.step env p (.sample_memory c)) = [Event.memUsageCall 1] := by
  cases hp : p.profiler with
  | disabled =>
      left
      simp [Profile.step, hp, facadeCall, disabledSig, argCountOk, traceOf]
  | enabled s =>
      cases hf : s.is_sammpling_memory
      · right
        simp [Profile.step, hp, facadeCall, enabledSig, argCountOk, traceOf,
          EnabledProfiler.dispatch, EnabledProfiler.memory, hf]
      · left
        simp [Profile.step, hp, facadeCall, enabledSig, argCountOk, traceOf,
          EnabledProfiler.dispatch, EnabledProfiler.memory, hf]

/-- Claim C9 (status: confirmed).  On the enabled backend, the methods
`run`, `runctx` and `runcall` are unconditional no-ops: for every state
and all argument values they return the state unchanged with an empty
event trace (no profiling action, no output). -/
theorem claim_C9_run_methods_noop (s : EnabledProfiler) (cm g l f a k : PyVal) :
    EnabledProfiler.run s cm = (s, []) ∧
    EnabledProfiler.runctx s cm g l = (s, []) ∧
    EnabledProfiler.runcall s f a k = (s, []) :=
  ⟨rfl, rfl, rfl⟩

/-- Claim C10 (status: confirmed).  A facade constructed with the default
file name binds `EnabledProfiler("")`, whose empty-string path is not
`None`, so `streaming` is set; consequently every report operation starts
by opening the empty-string path in append mode and none of them prints
to stdout. -/
theorem claim_C10_default_filename_streams (entries : List ProfEntry) (m : String) :
    Profile.initDefault.profiler = .enabled (EnabledProfiler.init (some "")) ∧
    (EnabledProfiler.init (some "")).streaming = true ∧
    (traceOf ((EnabledProfiler.init (some "")).statistics entries)).head? =
      some (.openF "" "a") ∧
    (traceOf ((EnabledProfiler.init (some "")).statistics_calls entries)).head? =
      some (.openF "" "a") ∧
    (traceOf ((EnabledProfiler.init (some "")).module_stats entries (some m))).head? =
      some (.openF "" "a") ∧
    (traceOf ((EnabledProfiler.init (some "")).module_stats_calls entries
        (some m))).head? = some (.openF "" "a") ∧
    (traceOf ((EnabledProfiler.init (some "")).statistics entries)).all
      (fun e => !e.isStdout) = true ∧
    (traceOf ((EnabledProfiler.init (some "")).statistics_calls entries)).all
      (fun e => !e.isStdout) = true ∧
    (traceOf ((EnabledProfiler.init (some "")).module_stats entries (some m))).all
      (fun e => !e.isStdout) = true ∧
    (traceOf ((EnabledProfiler.init (some "")).module_stats_calls entries (some m))).all
      (fun e => !e.isStdout) = true :=
  ⟨rfl, rfl, rfl, rfl, rfl, rfl, rfl, rfl, rfl, rfl⟩

/-- Claim C2, counterexample to the claim as stated: on an enabled backend
with a configured output path, `statistics_calls` completes without
raising, but its trace opens the file in append mode and never closes it
(one open, zero closes), so the claim's "closes the opened file handle
before returning" is false for `statistics_calls`. -/
theorem claim_C2_counterexample :
    raised (EnabledProfiler.statistics_calls (EnabledProfiler.init (some "prof.out"))
      []) = false ∧
    (traceOf (EnabledProfiler.statistics_calls (EnabledProfiler.init (some "prof.out"))
      [])).countP Event.isOpenF = 1 ∧
    balancedOpens (traceOf (EnabledProfiler.statistics_calls
      (EnabledProfiler.init (some "prof.out")) [])) = false :=
  ⟨rfl, rfl, rfl⟩

/-- Claim C2 (status: corrected).  On an enabled backend with a configured
output path, `statistics` opens the path in append mode, writes the
report, and closes the handle (balanced trace), and after the call the
file contains its previous content followed by the report text; but
`statistics_calls` opens the path in append mode and writes the caller
and callee lists without ever closing the handle (an open-handle leak). -/
theorem claim_C2_stream_close (s : EnabledProfiler) (f : String)
    (entries : List ProfEntry) (c0 : String)
    (h1 : s.streaming = true) (h2 : s.streamFile = some f) :
    EnabledProfiler.statistics s entries =
      .ok ({ s with streamStats := some f },
        [.openF f "a", .cprofCreateStats,
          .writeF f (renderStats (statisticsOrder entries)), .closeF f]) ∧
    balancedOpens (traceOf (EnabledProfiler.statistics s entries)) = true ∧
    replayFile f c0 (traceOf (EnabledProfiler.statistics s entries)) =
      c0 ++ renderStats (statisticsOrder entries) ∧
    EnabledProfiler.statistics_calls s entries =
      .ok ({ s with streamStats := some f },
        [.openF f "a", .cprofCreateStats,
          .writeF f (renderCallers (statisticsOrder entries)),
          .writeF f (renderCallees (statisticsOrder entries))]) ∧
    balancedOpens (traceOf (EnabledProfiler.statistics_calls s entries)) = false := by
  refine ⟨?_, ?_, ?_, ?_, ?_⟩ <;>
    simp [EnabledProfiler.statistics, EnabledProfiler.statistics_calls, h1, h2,
      traceOf, balancedOpens, replayFile, Event.isOpenF, Event.isCloseF,
      List.countP_cons, List.countP_nil]

theorem claim_C2_stream_close_witness :
    (EnabledProfiler.init (some "prof.out")).streaming = true ∧
    (EnabledProfiler.init (some "prof.out")).streamFile = some "prof.out" ∧
    (EnabledProfiler.statistics (EnabledProfiler.init (some "prof.out")) [] =
      .ok ({ EnabledProfiler.init (some "prof.out") with streamStats := some "prof.out" },
        [.openF "prof.out" "a", .cprofCreateStats,
          .writeF "prof.out" (renderStats (statisticsOrder [])), .closeF "prof.out"]) ∧
    balancedOpens (traceOf (EnabledProfiler.statistics
      (EnabledProfiler.init (some "prof.out")) [])) = true ∧
    replayFile "prof.out" "old" (traceOf (EnabledProfiler.statistics
      (EnabledProfiler.init (some "prof.out")) [])) =
      "old" ++ renderStats (statisticsOrder []) ∧
    EnabledProfiler.statistics_calls (EnabledProfiler.init (some "prof.out")) [] =
      .ok ({ EnabledProfiler.init (some "prof.out") with streamStats := some "prof.out" },
        [.openF "prof.out" "a", .cprofCreateStats,
          .writeF "prof.out" (renderCallers (statisticsOrder [])),
          .writeF "prof.out" (renderCallees (statisticsOrder []))]) ∧
    balancedOpens (traceOf (EnabledProfiler.statistics_calls
      (EnabledProfiler.init (some "prof.out")) [])) = false) :=
  ⟨rfl, rfl, claim_C2_stream_close (EnabledProfiler.init (some "prof.out")) "prof.out"
    [] "old" rfl rfl⟩

/-- Claim C3, counterexample to the claim as stated: two distinct entries
with equal module and function name but different internal times are
listed by the full-report path with the larger time first (the pstats
`time` key sorts descending), so the listing is not non-decreasing in the
plain tuple (module name, function name, internal time). -/
theorem claim_C3_counterexample :
    ce1 ≠ ce2 ∧
    (statisticsOrder [ce1, ce2]).length = 2 ∧
    ¬ (statisticsOrder [ce1, ce2]).Pairwise claimTupleLE := by
  have hmap : stripDirs [ce1, ce2] = [ce1, ce2] := by decide
  have hsort : statisticsOrder [ce1, ce2] = [ce2, ce1] := by
    unfold statisticsOrder sort_stats
    rw [hmap, List.mergeSort]
    simp [List.splitInTwo, List.splitAt, List.splitAt.go, List.merge, sortLe,
      TupleComp.cmpKeys, TupleComp.cmpKey, ce1, ce2]
  refine ⟨by decide, by rw [hsort]; rfl, ?_⟩
  rw [hsort]
  intro hpair
  have h21 : claimTupleLE ce2 ce1 := (List.pairwise_cons.mp hpair).1 ce1 (by simp)
  have hnot : ¬ claimTupleLE ce2 ce1 := by
    unfold claimTupleLE lex3
    norm_num [ce1, ce2]
  exact hnot h21

/-- Claim C3 (status: corrected).  The full-report path lists entries
sorted by module name ascending, then function name ascending, with
remaining ties ordered by internal time descending; the module-scoped
path (non-None module) lists entries sorted by function name ascending,
then call count descending, then internal time descending — the pstats
numeric keys `time` and `ncalls` sort in decreasing order, not
non-decreasing. -/
theorem claim_C3_report_order (entries : List ProfEntry) (m : String) :
    (statisticsOrder entries).Pairwise fullReportLE ∧
    (moduleStatsOrder m entries).Pairwise moduleReportLE :=
  ⟨statisticsOrder_pairwise entries, moduleStatsOrder_pairwise m entries⟩

/-- Claim C6 (status: confirmed).  Over every call history of an enabled
backend instance since its construction, `mem_used` prints the bordered
memory block exactly when the history contains a memory-sampling call,
and prints nothing — raising no error — when it does not. -/
theorem claim_C6_mem_used_iff_sampled (f : Option String) (cs : List BCall) :
    (cs.any BCall.isMemory = true →
      ∃ c mp, ((EnabledProfiler.init f).applyCalls cs).mem_used =
        .ok ((EnabledProfiler.init f).applyCalls cs, memBlock c mp)) ∧
    (cs.any BCall.isMemory = false →
      ((EnabledProfiler.init f).applyCalls cs).mem_used =
        .ok ((EnabledProfiler.init f).applyCalls cs, [])) := by
  have hflag := applyCalls_is_sammpling cs (EnabledProfiler.init f)
  have hinit : (EnabledProfiler.init f).is_sammpling_memory = false := rfl
  rw [hinit, Bool.false_or] at hflag
  have hwf : MemWF ((EnabledProfiler.init f).applyCalls cs) :=
    applyCalls_memWF cs _ (by intro hcontra; rw [hinit] at hcontra; cases hcontra)
  constructor
  · intro hmem
    have hft : ((EnabledProfiler.init f).applyCalls cs).is_sammpling_memory = true := by
      rw [hflag, hmem]
    obtain ⟨hc, hm⟩ := hwf hft
    obtain ⟨c, hc⟩ := Option.isSome_iff_exists.mp hc
    obtain ⟨mp, hm⟩ := Option.isSome_iff_exists.mp hm
    refine ⟨c, mp, ?_⟩
    simp [EnabledProfiler.mem_used, hft, hc, hm, memBlock]
  · intro hmem
    have hff : ((EnabledProfiler.init f).applyCalls cs).is_sammpling_memory = false := by
      rw [hflag, hmem]
    simp [EnabledProfiler.mem_used, hff]

theorem claim_C6_witness :
    (∃ c mp,
      ((EnabledProfiler.init none).applyCalls [BCall.memory 1 "note" [5]]).mem_used =
        .ok ((EnabledProfiler.init none).applyCalls [BCall.memory 1 "note" [5]],
          memBlock c mp)) ∧
    ((EnabledProfiler.init none).applyCalls []).mem_used =
      .ok ((EnabledProfiler.init none).applyCalls [], []) :=
  ⟨(claim_C6_mem_used_iff_sampled none [BCall.memory 1 "note" [5]]).1 rfl,
   (claim_C6_mem_used_iff_sampled none []).2 rfl⟩

/-- Claim C7 (status: confirmed).  The facade binds the enabled backend
exactly when constructed with `is_enabled = true`, and no public
operation changes which kind of backend the instance holds. -/
theorem claim_C7_backend_fixed (e : Bool) (fn : String) (env : Env) (p : Profile)
    (op : FacadeOp) :
    (Profile.init e fn).profiler.isEnabled = e ∧
    (Profile.applyOp env p op).profiler.isEnabled = p.profiler.isEnabled := by
  constructor
  · cases e <;> rfl
  · unfold Profile.applyOp
    cases hp : p.profiler with
    | disabled =>
        simp only [Profile.step, hp]
        split
        · rename_i p2 ev heq
          split at heq
          · cases heq
            rw [hp]
          · simp at heq
        · rw [hp]
    | enabled s =>
        simp only [Profile.step, hp]
        split
        · rename_i p2 ev heq
          split at heq
          · split at heq
            · cases heq
              simp [Backend.isEnabled]
            · simp at heq
          · simp at heq
        · rw [hp]

theorem claim_C4_witness :
    "a" ≠ "b" ∧
    (Profile.step (Env.mk [] [9])
        (Profile.applyOp (Env.mk [] [7]) (Profile.init true "out") (.sample_memory "a"))
        (.sample_memory "b") =
      .ok (Profile.applyOp (Env.mk [] [7]) (Profile.init true "out")
        (.sample_memory "a"), []) ∧
    (∃ s, (Profile.applyOp (Env.mk [] [7]) (Profile.init true "out")
        (.sample_memory "a")).profiler = .enabled s ∧ s.comment = some "a") ∧
    traceOf (Profile.step (Env.mk [] [9])
        (Profile.applyOp (Env.mk [] [7]) (Profile.init true "out") (.sample_memory "a"))
        .memory_usage) = memBlock "a" (Env.mk [] [7]).memSamples) :=
  ⟨by decide,
   claim_C4_sample_memory_idempotent "out" "a" "b" (Env.mk [] [7]) (Env.mk [] [9])
     (by decide)⟩
